import Mathlib

/-!
Verification development for the rendercv-sidebar templater
(`src/rendercv/renderer/templater/templater.py`).

The embedding models the data the templater reads:

* `RenderCVSection` mirrors the fields of a section object consumed by the
  templater (`title`, `snake_case_title`, `entry_type`, `entries`); entries are
  opaque objects passed through to templates and are modelled as strings.
* `Sidebar` mirrors `rendercv.schema.models.design.sidebar_theme.Sidebar`
  (`width`, `position`, `gutter`, `background_color`, `sections`).
* `Design` carries the `theme` discriminator and an optional `sidebar`
  configuration; `Option` models Python's `hasattr(design, 'sidebar')`.
* `RenderCVModel` carries `cv`, `design`, `locale`, `settings` and the
  `_input_file_path` used for override resolution.

The Jinja2 engine is external to the repository; a template is modelled as an
opaque render function from the model and the keyword arguments to a string,
and the filesystem of template files as a function from a root directory and a
relative name to an optional template (`RenderEnv.fs`).  `jinja2.Environment`
with `FileSystemLoader([override_dir, templates_directory])` is modelled by
`Jinja2Environment`, whose `get_template` probes the two roots in order.
`process_model` (in `model_processor.py`, outside the sources) is a black box
per the spec and is a parameter of `render_full_template`.
-/

structure RenderCVSection where
  title : String
  snake_case_title : String
  entry_type : String
  entries : List String
deriving DecidableEq

structure Sidebar where
  width : String
  position : String
  gutter : String
  background_color : Option String
  sections : List String
deriving DecidableEq

structure Design where
  theme : String
  sidebar : Option Sidebar
deriving DecidableEq

structure Cv where
  rendercv_sections : List RenderCVSection
deriving DecidableEq

structure RenderCVModel where
  cv : Cv
  design : Design
  locale : String
  settings : String
  input_file_path : Option String
deriving DecidableEq

/-- A compiled Jinja2 template: rendering binds the model's `cv`, `design`,
`locale`, `settings` plus the extra keyword arguments, so a template is a
function of the model and the keyword-argument list. -/
def Template : Type := RenderCVModel → List (String × String) → String

/-- The external world the templater runs in: the template files on disk
(`fs root relative_name`), the current working directory, and the parent
directory of a path (used for `input_file_path.parent`). -/
structure RenderEnv where
  fs : String → String → Option Template
  cwd : String
  parent : String → String

/-- The built-in templates directory bundled with the package
(`pathlib.Path(__file__).parent / "templates"`, templater.py line 14). -/
def templates_directory : String := "rendercv/renderer/templater/templates"

/-- A Jinja2 environment: the `FileSystemLoader` search path and the file
system it reads, mirroring templater.py lines 34-45. -/
structure Jinja2Environment where
  searchPath : List String
  fs : String → String → Option Template

/-- Embedding of `get_jinja2_environment` (templater.py lines 17-48): the
loader searches the input file's directory (or the current working directory
when there is no input file) before the built-in templates directory. -/
def get_jinja2_environment (R : RenderEnv) (input_file_path : Option String) :
    Jinja2Environment :=
  { searchPath := [(match input_file_path with
      | some p => R.parent p
      | none => R.cwd), templates_directory]
    fs := R.fs }

/-- Search the environment's roots in order for a template file. -/
def lookupRoots (env : Jinja2Environment) (name : String) : Option Template :=
  env.searchPath.findSome? (fun root => env.fs root name)

/-- Errors the templater can raise: `jinja2.TemplateNotFound` and Python's
`AttributeError` (raised on `design.sidebar` access when the attribute is
absent). -/
inductive RenderError where
  | templateNotFound (name : String)
  | attributeError (attr : String)
deriving DecidableEq

/-- Embedding of `jinja2.Environment.get_template`: the first root holding
the name wins; raises `TemplateNotFound` when no root holds it. -/
def Jinja2Environment.get_template (env : Jinja2Environment) (name : String) :
    Except RenderError Template :=
  match lookupRoots env name with
  | some t => Except.ok t
  | none => Except.error (RenderError.templateNotFound name)

/-- Embedding of `render_single_template` (templater.py lines 249-305).
For `typst` the theme-specific path is probed first with `TemplateNotFound`
suppressed (`contextlib.suppress`); when it did not resolve the
format-directory path is probed, and its `TemplateNotFound` propagates. -/
def render_single_template (R : RenderEnv) (file_type : String)
    (relative_template_path : String) (m : RenderCVModel)
    (kwargs : List (String × String)) : Except RenderError String :=
  let env := get_jinja2_environment R m.input_file_path
  let fromTheme : Option Template :=
    if file_type = "typst" then
      match env.get_template (m.design.theme ++ "/" ++ relative_template_path) with
      | Except.ok t => some t
      | Except.error _ => none
    else none
  match fromTheme with
  | some t => Except.ok (t m kwargs)
  | none =>
    match env.get_template (file_type ++ "/" ++ relative_template_path) with
    | Except.ok t => Except.ok (t m kwargs)
    | Except.error e => Except.error e

/-- The output formats accepted by `render_full_template`
(`Literal["typst", "markdown"]`). -/
inductive FileType where
  | typst
  | markdown
deriving DecidableEq

/-- The format string passed to `render_single_template`. -/
def FileType.format : FileType → String
  | FileType.typst => "typst"
  | FileType.markdown => "markdown"

/-- The extension table of templater.py lines 77-80. -/
def extOf : FileType → String
  | FileType.typst => "typ"
  | FileType.markdown => "md"

/-- Embedding of the entry loop of `render_full_template` (templater.py
lines 134-142, identical at lines 205-213): each entry is rendered with the
`entries/{entry_type}` template, in order, and the first failure raises. -/
def renderEntries (R : RenderEnv) (m : RenderCVModel) (file_type : String)
    (ext : String) (entry_type : String) :
    List String → Except RenderError (List String)
  | [] => Except.ok []
  | e :: es =>
    match render_single_template R file_type
        ("entries/" ++ entry_type ++ ".j2." ++ ext) m [("entry", e)] with
    | Except.error err => Except.error err
    | Except.ok c =>
      match renderEntries R m file_type ext entry_type es with
      | Except.error err => Except.error err
      | Except.ok cs => Except.ok (c :: cs)

/-- Embedding of one section's rendering (templater.py lines 120-144,
identical at lines 191-215): beginning, ending, then the entries are
rendered (in that evaluation order), the entry renders are joined with two
newline characters, and the block is beginning, newline, entries block,
newline, ending. -/
def render_section_code (R : RenderEnv) (m : RenderCVModel) (file_type : String)
    (ext : String) (s : RenderCVSection) : Except RenderError String :=
  match render_single_template R file_type ("SectionBeginning.j2." ++ ext) m
      [("section_title", s.title), ("snake_case_section_title", s.snake_case_title),
       ("entry_type", s.entry_type)] with
  | Except.error e => Except.error e
  | Except.ok section_beginning =>
    match render_single_template R file_type ("SectionEnding.j2." ++ ext) m
        [("entry_type", s.entry_type)] with
    | Except.error e => Except.error e
    | Except.ok section_ending =>
      match renderEntries R m file_type ext s.entry_type s.entries with
      | Except.error e => Except.error e
      | Except.ok entry_codes =>
        Except.ok (section_beginning ++ "\n" ++ String.intercalate "\n\n" entry_codes
          ++ "\n" ++ section_ending)

/-- Embedding of the name-partition loop (templater.py lines 96-102): the
snake-case titles of the sections, split by membership of the sidebar
configuration's `sections` (a Python `set`, so membership only). -/
def partitionNames (cfg : List String) :
    List RenderCVSection → List String × List String
  | [] => ([], [])
  | s :: rest =>
    let p := partitionNames cfg rest
    if s.snake_case_title ∈ cfg then (s.snake_case_title :: p.1, p.2)
    else (p.1, s.snake_case_title :: p.2)

/-- Embedding of the sidebar-mode section loop (templater.py lines 116-150):
sections are rendered in original order and each block is appended to the
sidebar stream when its snake-case title is in `sidebar_section_names`, to
the main stream otherwise. -/
def splitRender (R : RenderEnv) (m : RenderCVModel) (file_type : String)
    (ext : String) (sidebar_section_names : List String) :
    List RenderCVSection → Except RenderError (List String × List String)
  | [] => Except.ok ([], [])
  | s :: rest =>
    match render_section_code R m file_type ext s with
    | Except.error e => Except.error e
    | Except.ok section_code =>
      match splitRender R m file_type ext sidebar_section_names rest with
      | Except.error e => Except.error e
      | Except.ok p =>
        if s.snake_case_title ∈ sidebar_section_names then
          Except.ok (section_code :: p.1, p.2)
        else Except.ok (p.1, section_code :: p.2)

/-- Embedding of the single-column loop (templater.py lines 190-216): the
accumulated document gets each section block appended after a newline. -/
def renderSections (R : RenderEnv) (m : RenderCVModel) (file_type : String)
    (ext : String) : String → List RenderCVSection → Except RenderError String
  | code, [] => Except.ok code
  | code, s :: rest =>
    match render_section_code R m file_type ext s with
    | Except.error e => Except.error e
    | Except.ok section_code =>
      renderSections R m file_type ext (code ++ "\n" ++ section_code) rest

/-- The literal grid block emitted when `position == "left"` (templater.py
lines 163-174). -/
def gridLeftBlock (width gutter sidebar_content main_content : String) : String :=
  "\n#grid(\n  columns: (" ++ width ++ ", 1fr),\n  gutter: " ++ gutter
    ++ ",\n  [\n" ++ sidebar_content ++ "\n  ],\n  [\n" ++ main_content
    ++ "\n  ]\n)\n"

/-- The literal grid block emitted otherwise (templater.py lines 176-187). -/
def gridRightBlock (width gutter main_content sidebar_content : String) : String :=
  "\n#grid(\n  columns: (1fr, " ++ width ++ "),\n  gutter: " ++ gutter
    ++ ",\n  [\n" ++ main_content ++ "\n  ],\n  [\n" ++ sidebar_content
    ++ "\n  ]\n)\n"

/-- The grid emission of templater.py lines 161-187, selected on
`sidebar.position == "left"`. -/
def gridString (sb : Sidebar) (sidebar_content main_content : String) : String :=
  if sb.position = "left" then
    gridLeftBlock sb.width sb.gutter sidebar_content main_content
  else gridRightBlock sb.width sb.gutter main_content sidebar_content

/-- The header/preamble block of templater.py lines 84-112: the header is
rendered first (line 84); for typst the preamble is rendered and prepended
(`f"{preamble}\n\n{header}\n"`), otherwise the code starts as
`f"{header}\n"`. -/
def documentHead (R : RenderEnv) (m : RenderCVModel) (ft : FileType) :
    Except RenderError String :=
  match render_single_template R ft.format ("Header.j2." ++ extOf ft) m [] with
  | Except.error e => Except.error e
  | Except.ok header =>
    match ft with
    | FileType.typst =>
      match render_single_template R "typst" ("Preamble.j2." ++ extOf ft) m [] with
      | Except.error e => Except.error e
      | Except.ok preamble => Except.ok (preamble ++ "\n\n" ++ header ++ "\n")
    | FileType.markdown => Except.ok (header ++ "\n")

/-- The `sidebar_section_names` list of templater.py lines 92-102: filled
only when the theme is "sidebar" and the design has a `sidebar` attribute. -/
def sidebarSectionNames (m : RenderCVModel) : List String :=
  match m.design.sidebar with
  | some sb =>
    if m.design.theme = "sidebar" then
      (partitionNames sb.sections m.cv.rendercv_sections).1
    else []
  | none => []

/-- `render_full_template` after the `process_model` call (templater.py
lines 77-218).  The two-column branch is taken when the theme is "sidebar"
and the format is typst (line 115); it renders every section (lines
119-150), then reads `design.sidebar.width` (line 157), which raises
`AttributeError` when the design has no `sidebar` attribute; otherwise the
single-column loop runs (lines 188-216). -/
def renderProcessed (R : RenderEnv) (m : RenderCVModel) (ft : FileType) :
    Except RenderError String :=
  match documentHead R m ft with
  | Except.error e => Except.error e
  | Except.ok code =>
    if m.design.theme = "sidebar" ∧ ft = FileType.typst then
      match splitRender R m ft.format (extOf ft) (sidebarSectionNames m)
          m.cv.rendercv_sections with
      | Except.error e => Except.error e
      | Except.ok p =>
        let sidebar_content := String.intercalate "\n\n" p.1
        let main_content := String.intercalate "\n\n" p.2
        match m.design.sidebar with
        | none => Except.error (RenderError.attributeError "sidebar")
        | some sb => Except.ok (code ++ gridString sb sidebar_content main_content)
    else renderSections R m ft.format (extOf ft) code m.cv.rendercv_sections

/-- The external model post-processor `process_model` (imported from
`model_processor.py`, outside the given sources; the spec treats it as a
black box producing the effective model), modelled as a parameter. -/
def ProcessModel : Type := RenderCVModel → FileType → RenderCVModel

/-- Embedding of `render_full_template` (templater.py lines 51-218): the
model is post-processed once (line 82) and the document is assembled from
the processed model. -/
def render_full_template (R : RenderEnv) (process_model : ProcessModel)
    (rendercv_model : RenderCVModel) (ft : FileType) : Except RenderError String :=
  renderProcessed R (process_model rendercv_model ft) ft

/-- The single-column document: the templater's path with the two-column
branch removed (templater.py lines 84-112 and 188-218).  Used to state that
a render falls back to, or stays in, single-column layout. -/
def renderSingleColumnDocument (R : RenderEnv) (m : RenderCVModel) (ft : FileType) :
    Except RenderError String :=
  match documentHead R m ft with
  | Except.error e => Except.error e
  | Except.ok code => renderSections R m ft.format (extOf ft) code m.cv.rendercv_sections

/-- The caller-supplied override directory: the input file's parent
directory, or the working directory when there is no input file. -/
def overrideDirectory (R : RenderEnv) (input_file_path : Option String) : String :=
  match input_file_path with
  | some p => R.parent p
  | none => R.cwd

/-- Spec-side description of one probe (spec section 4.1): the override
directory is checked before the built-in templates directory. -/
def probeRoots (R : RenderEnv) (input_file_path : Option String) (name : String) :
    Option Template :=
  match R.fs (overrideDirectory R input_file_path) name with
  | some t => some t
  | none => R.fs templates_directory name

/-- Spec-side description of template resolution (spec section 4.1): for
typst, first the theme-qualified path, then the format-qualified path; for
other formats the format-qualified path directly; every probe searches the
override root before the built-in root. -/
def resolveTemplateSpec (R : RenderEnv) (input_file_path : Option String)
    (theme : String) (file_type : String) (rel : String) : Option Template :=
  if file_type = "typst" then
    match probeRoots R input_file_path (theme ++ "/" ++ rel) with
    | some t => some t
    | none => probeRoots R input_file_path (file_type ++ "/" ++ rel)
  else probeRoots R input_file_path (file_type ++ "/" ++ rel)

/-- Boolean success of a render step. -/
def rOk {α : Type} (x : Except RenderError α) : Bool :=
  match x with
  | Except.ok _ => true
  | Except.error _ => false

/-- Embedding of `@functools.lru_cache(maxsize=1)` on
`get_jinja2_environment`: the cache holds at most the most recent key (the
nullable input file path) with its environment; a hit returns the stored
environment without constructing (third component `false`), a miss
constructs and stores (third component `true`). -/
def lruCacheGet (R : RenderEnv) (cache : Option (Option String × Jinja2Environment))
    (input_file_path : Option String) :
    Jinja2Environment × Option (Option String × Jinja2Environment) × Bool :=
  match cache with
  | some entry =>
    if entry.1 = input_file_path then (entry.2, some entry, false)
    else
      let env := get_jinja2_environment R input_file_path
      (env, some (input_file_path, env), true)
  | none =>
    let env := get_jinja2_environment R input_file_path
    (env, some (input_file_path, env), true)

/-- A sequence of environment fetches through the cache: returns the
environments handed out and the number of constructions performed. -/
def resolveSession (R : RenderEnv) :
    Option (Option String × Jinja2Environment) → List (Option String) →
    List Jinja2Environment × Nat
  | _, [] => ([], 0)
  | cache, k :: ks =>
    let r := lruCacheGet R cache k
    let rest := resolveSession R r.2.1 ks
    (r.1 :: rest.1, (if r.2.2 then 1 else 0) + rest.2)

/-- A template that renders the empty string, for concrete checks. -/
def tmplEmpty : Template := fun _ _ => ""

/-- A filesystem on which every template path resolves, to `tmplEmpty`. -/
def fsAll : String → String → Option Template := fun _ _ => some tmplEmpty

/-- A concrete render environment for concrete checks. -/
def envAll : RenderEnv := { fs := fsAll, cwd := "cwd", parent := fun _ => "ov" }

/-- The identity post-processor, a concrete `ProcessModel`. -/
def ppId : ProcessModel := fun m _ => m

/-- A concrete experience section with one entry. -/
def sectExperience : RenderCVSection :=
  { title := "Experience", snake_case_title := "experience",
    entry_type := "experience", entries := ["e1"] }

/-- A concrete skills section with one entry. -/
def sectSkills : RenderCVSection :=
  { title := "Skills", snake_case_title := "skills",
    entry_type := "one_line_entry", entries := ["s1"] }

/-- A concrete education section with no entries. -/
def sectEducationEmpty : RenderCVSection :=
  { title := "Education", snake_case_title := "education",
    entry_type := "education", entries := [] }

/-- A concrete sidebar configuration: the schema defaults with the skills
section assigned to the sidebar. -/
def sbLeft : Sidebar :=
  { width := "30%", position := "left", gutter := "0.5cm",
    background_color := none, sections := ["skills"] }

/-- A sidebar-theme model whose design lacks the sidebar attribute. -/
def mNoCfg : RenderCVModel :=
  { cv := { rendercv_sections := [sectExperience] },
    design := { theme := "sidebar", sidebar := none },
    locale := "en", settings := "default", input_file_path := none }

/-- A sidebar-theme model with a sidebar configuration. -/
def mSidebar : RenderCVModel :=
  { cv := { rendercv_sections := [sectExperience, sectSkills] },
    design := { theme := "sidebar", sidebar := some sbLeft },
    locale := "en", settings := "default", input_file_path := none }

/-- A classic-theme model with one empty section. -/
def mClassic : RenderCVModel :=
  { cv := { rendercv_sections := [sectEducationEmpty] },
    design := { theme := "classic", sidebar := none },
    locale := "en", settings := "default", input_file_path := none }

/-- A template whose output lists `design.sidebar.sections` in order. -/
def tmplListing : Template := fun m _ =>
  String.intercalate "," (match m.design.sidebar with
    | some sb => sb.sections
    | none => [])

/-- A filesystem on which every path resolves to `tmplListing`. -/
def fsListing : String → String → Option Template := fun _ _ => some tmplListing

/-- A render environment whose templates read the sidebar section list. -/
def envListing : RenderEnv := { fs := fsListing, cwd := "cwd", parent := fun _ => "ov" }

/-- A sidebar-theme model with sidebar section list `["alpha", "beta"]` and
no CV sections. -/
def mOrderAB : RenderCVModel :=
  { cv := { rendercv_sections := [] },
    design := { theme := "sidebar",
                sidebar := some ({ sbLeft with sections := ["alpha", "beta"] }) },
    locale := "en", settings := "default", input_file_path := none }

/-- `mOrderAB` with the sidebar section list reversed. -/
def mOrderBA : RenderCVModel :=
  { cv := { rendercv_sections := [] },
    design := { theme := "sidebar",
                sidebar := some ({ sbLeft with sections := ["beta", "alpha"] }) },
    locale := "en", settings := "default", input_file_path := none }

/-! ### Helper lemmas -/

theorem exceptMapM_cons_ok {α β : Type} (f : α → Except RenderError β) (a : α)
    (l : List α) (ys : List β) (h : (a :: l).mapM f = Except.ok ys) :
    ∃ y ys', f a = Except.ok y ∧ l.mapM f = Except.ok ys' ∧ ys = y :: ys' := by
  rw [List.mapM_cons] at h
  cases hf : f a with
  | error e => rw [hf] at h; exact Except.noConfusion h
  | ok y =>
    rw [hf] at h
    cases hl : l.mapM f with
    | error e => rw [hl] at h; exact Except.noConfusion h
    | ok ys' =>
      rw [hl] at h
      exact ⟨y, ys', rfl, rfl, (Except.ok.inj h).symm⟩

theorem exceptMapM_cons_build {α β : Type} (f : α → Except RenderError β) (a : α)
    (l : List α) (y : β) (ys : List β) (hf : f a = Except.ok y)
    (hl : l.mapM f = Except.ok ys) : (a :: l).mapM f = Except.ok (y :: ys) := by
  rw [List.mapM_cons, hf, hl]; rfl

theorem exceptMapM_ok_length {α β : Type} (f : α → Except RenderError β) :
    ∀ (l : List α) (ys : List β), l.mapM f = Except.ok ys → ys.length = l.length := by
  intro l
  induction l with
  | nil =>
    intro ys h
    have h' : ([] : List β) = ys := Except.ok.inj h
    rw [← h']
    rfl
  | cons a l ih =>
    intro ys h
    obtain ⟨y, ys', _, hl, rfl⟩ := exceptMapM_cons_ok f a l ys h
    simp [ih ys' hl]

theorem filter_length_partition {α : Type} (p : α → Bool) :
    ∀ l : List α,
    (l.filter p).length + (l.filter (fun a => !p a)).length = l.length := by
  intro l
  induction l with
  | nil => rfl
  | cons a l ih =>
    cases h : p a with
    | true => simp [List.filter_cons, h]; omega
    | false => simp [List.filter_cons, h]; omega

theorem renderEntries_eq_mapM (R : RenderEnv) (m : RenderCVModel)
    (file_type ext entry_type : String) :
    ∀ es : List String,
    renderEntries R m file_type ext entry_type es
      = es.mapM (fun e => render_single_template R file_type
          ("entries/" ++ entry_type ++ ".j2." ++ ext) m [("entry", e)]) := by
  intro es
  induction es with
  | nil => rfl
  | cons e es ih =>
    simp only [renderEntries, List.mapM_cons, ← ih]
    cases render_single_template R file_type
        ("entries/" ++ entry_type ++ ".j2." ++ ext) m [("entry", e)] with
    | error err => rfl
    | ok c =>
      cases renderEntries R m file_type ext entry_type es with
      | error err => rfl
      | ok cs => rfl

theorem renderSections_of_mapM (R : RenderEnv) (m : RenderCVModel)
    (file_type ext : String) :
    ∀ (sections : List RenderCVSection) (blocks : List String) (code : String),
    sections.mapM (render_section_code R m file_type ext) = Except.ok blocks →
    renderSections R m file_type ext code sections
      = Except.ok (blocks.foldl (fun acc b => acc ++ "\n" ++ b) code) := by
  intro sections
  induction sections with
  | nil =>
    intro blocks code h
    have h' : ([] : List String) = blocks := Except.ok.inj h
    rw [← h']
    rfl
  | cons s rest ih =>
    intro blocks code h
    obtain ⟨b, bs, hb, hrest, rfl⟩ := exceptMapM_cons_ok _ s rest blocks h
    simp only [renderSections]
    rw [hb]
    exact ih bs (code ++ "\n" ++ b) hrest

theorem renderSections_ok_sections (R : RenderEnv) (m : RenderCVModel)
    (file_type ext : String) :
    ∀ (sections : List RenderCVSection) (code : String),
    rOk (renderSections R m file_type ext code sections) = true →
    ∀ s ∈ sections, rOk (render_section_code R m file_type ext s) = true := by
  intro sections
  induction sections with
  | nil => intro code _ s hs; cases hs
  | cons a rest ih =>
    intro code h s hs
    simp only [renderSections] at h
    cases ha : render_section_code R m file_type ext a with
    | error e => rw [ha] at h; simp [rOk] at h
    | ok sc =>
      rw [ha] at h
      cases hs with
      | head => simp [rOk, ha]
      | tail _ hmem => exact ih (code ++ "\n" ++ sc) h s hmem

theorem renderEntries_ok_entries (R : RenderEnv) (m : RenderCVModel)
    (file_type ext entry_type : String) :
    ∀ es : List String,
    rOk (renderEntries R m file_type ext entry_type es) = true →
    ∀ e ∈ es, rOk (render_single_template R file_type
        ("entries/" ++ entry_type ++ ".j2." ++ ext) m [("entry", e)]) = true := by
  intro es
  induction es with
  | nil => intro _ e he; cases he
  | cons a rest ih =>
    intro h e he
    simp only [renderEntries] at h
    cases ha : render_single_template R file_type
        ("entries/" ++ entry_type ++ ".j2." ++ ext) m [("entry", a)] with
    | error err => rw [ha] at h; simp [rOk] at h
    | ok c =>
      rw [ha] at h
      cases he with
      | head => simp [rOk, ha]
      | tail _ hmem =>
        cases hrest : renderEntries R m file_type ext entry_type rest with
        | error err => rw [hrest] at h; simp [rOk] at h
        | ok cs => exact ih (by simp [rOk, hrest]) e hmem

theorem render_section_code_ok_components (R : RenderEnv) (m : RenderCVModel)
    (file_type ext : String) (s : RenderCVSection)
    (h : rOk (render_section_code R m file_type ext s) = true) :
    rOk (render_single_template R file_type ("SectionBeginning.j2." ++ ext) m
        [("section_title", s.title), ("snake_case_section_title", s.snake_case_title),
         ("entry_type", s.entry_type)]) = true
    ∧ rOk (render_single_template R file_type ("SectionEnding.j2." ++ ext) m
        [("entry_type", s.entry_type)]) = true
    ∧ ∀ e ∈ s.entries, rOk (render_single_template R file_type
        ("entries/" ++ s.entry_type ++ ".j2." ++ ext) m [("entry", e)]) = true := by
  simp only [render_section_code] at h
  cases hb : render_single_template R file_type ("SectionBeginning.j2." ++ ext) m
      [("section_title", s.title), ("snake_case_section_title", s.snake_case_title),
       ("entry_type", s.entry_type)] with
  | error e => rw [hb] at h; simp [rOk] at h
  | ok b =>
    rw [hb] at h
    cases he : render_single_template R file_type ("SectionEnding.j2." ++ ext) m
        [("entry_type", s.entry_type)] with
    | error e2 => rw [he] at h; simp [rOk] at h
    | ok en =>
      rw [he] at h
      cases hent : renderEntries R m file_type ext s.entry_type s.entries with
      | error e3 => rw [hent] at h; simp [rOk] at h
      | ok cs =>
        exact ⟨by simp [rOk, hb], by simp [rOk, he],
          renderEntries_ok_entries R m file_type ext s.entry_type s.entries
            (by simp [rOk, hent])⟩

theorem splitRender_ok_sections (R : RenderEnv) (m : RenderCVModel)
    (file_type ext : String) (names : List String) :
    ∀ sections : List RenderCVSection,
    rOk (splitRender R m file_type ext names sections) = true →
    ∀ s ∈ sections, rOk (render_section_code R m file_type ext s) = true := by
  intro sections
  induction sections with
  | nil => intro _ s hs; cases hs
  | cons a rest ih =>
    intro h s hs
    simp only [splitRender] at h
    cases ha : render_section_code R m file_type ext a with
    | error e => rw [ha] at h; simp [rOk] at h
    | ok sc =>
      rw [ha] at h
      cases hs with
      | head => simp [rOk, ha]
      | tail _ hmem =>
        cases hrest : splitRender R m file_type ext names rest with
        | error e => rw [hrest] at h; simp [rOk] at h
        | ok p => exact ih (by simp [rOk, hrest]) s hmem

theorem partitionNames_fst_mem (cfg : List String) :
    ∀ (sections : List RenderCVSection) (t : String),
    t ∈ (partitionNames cfg sections).1
      ↔ t ∈ cfg ∧ ∃ s, s ∈ sections ∧ s.snake_case_title = t := by
  intro sections
  induction sections with
  | nil => intro t; simp [partitionNames]
  | cons a rest ih =>
    intro t
    by_cases hmem : a.snake_case_title ∈ cfg
    · simp only [partitionNames, if_pos hmem]
      rw [List.mem_cons, ih]
      constructor
      · rintro (rfl | ⟨hc, s, hsmem, hst⟩)
        · exact ⟨hmem, a, List.mem_cons_self a rest, rfl⟩
        · exact ⟨hc, s, List.mem_cons_of_mem a hsmem, hst⟩
      · rintro ⟨hc, s, hsmem, hst⟩
        rcases List.mem_cons.mp hsmem with rfl | hsrest
        · exact Or.inl hst.symm
        · exact Or.inr ⟨hc, s, hsrest, hst⟩
    · simp only [partitionNames, if_neg hmem]
      rw [ih]
      constructor
      · rintro ⟨hc, s, hsmem, hst⟩
        exact ⟨hc, s, List.mem_cons_of_mem a hsmem, hst⟩
      · rintro ⟨hc, s, hsmem, hst⟩
        rcases List.mem_cons.mp hsmem with rfl | hsrest
        · rw [← hst] at hc
          exact absurd hc hmem
        · exact ⟨hc, s, hsrest, hst⟩

theorem mem_sidebarNames_iff (cfg : List String) (sections : List RenderCVSection)
    (s : RenderCVSection) (hs : s ∈ sections) :
    s.snake_case_title ∈ (partitionNames cfg sections).1
      ↔ s.snake_case_title ∈ cfg := by
  rw [partitionNames_fst_mem]
  constructor
  · rintro ⟨hc, _⟩; exact hc
  · intro hc; exact ⟨hc, s, hs, rfl⟩

theorem splitRender_congr (R : RenderEnv) (m : RenderCVModel)
    (file_type ext : String) (names₁ names₂ : List String) :
    ∀ sections : List RenderCVSection,
    (∀ s ∈ sections, (s.snake_case_title ∈ names₁ ↔ s.snake_case_title ∈ names₂)) →
    splitRender R m file_type ext names₁ sections
      = splitRender R m file_type ext names₂ sections := by
  intro sections
  induction sections with
  | nil => intro _; rfl
  | cons a rest ih =>
    intro hiff
    simp only [splitRender]
    rw [ih (fun s hs => hiff s (List.mem_cons_of_mem a hs))]
    cases render_section_code R m file_type ext a with
    | error e => rfl
    | ok sc =>
      cases splitRender R m file_type ext names₂ rest with
      | error e => rfl
      | ok p =>
        by_cases hm : a.snake_case_title ∈ names₁
        · have hm2 := (hiff a (List.mem_cons_self a rest)).mp hm
          simp [hm, hm2]
        · have hm2 : a.snake_case_title ∉ names₂ :=
            fun hc => hm ((hiff a (List.mem_cons_self a rest)).mpr hc)
          simp [hm, hm2]

theorem splitRender_ok_filters (R : RenderEnv) (m : RenderCVModel)
    (file_type ext : String) (cfg : List String) :
    ∀ (sections : List RenderCVSection) (A B : List String),
    splitRender R m file_type ext cfg sections = Except.ok (A, B) →
    (sections.filter (fun s => decide (s.snake_case_title ∈ cfg))).mapM
        (render_section_code R m file_type ext) = Except.ok A
    ∧ (sections.filter (fun s => !decide (s.snake_case_title ∈ cfg))).mapM
        (render_section_code R m file_type ext) = Except.ok B := by
  intro sections
  induction sections with
  | nil =>
    intro A B h
    obtain ⟨hA, hB⟩ := Prod.mk.inj (Except.ok.inj h)
    rw [← hA, ← hB]
    exact ⟨rfl, rfl⟩
  | cons a rest ih =>
    intro A B h
    simp only [splitRender] at h
    cases ha : render_section_code R m file_type ext a with
    | error e => rw [ha] at h; exact Except.noConfusion h
    | ok sc =>
      rw [ha] at h
      cases hrest : splitRender R m file_type ext cfg rest with
      | error e => rw [hrest] at h; exact Except.noConfusion h
      | ok p =>
        rw [hrest] at h
        obtain ⟨hA1, hB1⟩ := ih p.1 p.2 (by rw [hrest])
        by_cases hm : a.snake_case_title ∈ cfg
        · have h' : Except.ok (sc :: p.1, p.2) = (Except.ok (A, B) :
              Except RenderError (List String × List String)) := by
            rw [← h]; simp [hm]
          obtain ⟨hA2, hB2⟩ := Prod.mk.inj (Except.ok.inj h')
          rw [← hA2, ← hB2]
          constructor
          · rw [List.filter_cons, if_pos (by simp [hm])]
            exact exceptMapM_cons_build _ a _ sc p.1 ha hA1
          · rw [List.filter_cons, if_neg (by simp [hm])]
            exact hB1
        · have h' : Except.ok (p.1, sc :: p.2) = (Except.ok (A, B) :
              Except RenderError (List String × List String)) := by
            rw [← h]; simp [hm]
          obtain ⟨hA2, hB2⟩ := Prod.mk.inj (Except.ok.inj h')
          rw [← hA2, ← hB2]
          constructor
          · rw [List.filter_cons, if_neg (by simp [hm])]
            exact hA1
          · rw [List.filter_cons, if_pos (by simp [hm])]
            exact exceptMapM_cons_build _ a _ sc p.2 ha hB1

theorem splitRender_of_filters (R : RenderEnv) (m : RenderCVModel)
    (file_type ext : String) (cfg : List String) :
    ∀ (sections : List RenderCVSection) (A B : List String),
    (sections.filter (fun s => decide (s.snake_case_title ∈ cfg))).mapM
        (render_section_code R m file_type ext) = Except.ok A →
    (sections.filter (fun s => !decide (s.snake_case_title ∈ cfg))).mapM
        (render_section_code R m file_type ext) = Except.ok B →
    splitRender R m file_type ext cfg sections = Except.ok (A, B) := by
  intro sections
  induction sections with
  | nil =>
    intro A B hA hB
    have hA' : ([] : List String) = A := Except.ok.inj hA
    have hB' : ([] : List String) = B := Except.ok.inj hB
    rw [← hA', ← hB']
    rfl
  | cons a rest ih =>
    intro A B hA hB
    by_cases hm : a.snake_case_title ∈ cfg
    · rw [List.filter_cons, if_pos (by simp [hm])] at hA
      rw [List.filter_cons, if_neg (by simp [hm])] at hB
      obtain ⟨y, ys', hy, hys, rfl⟩ := exceptMapM_cons_ok _ a _ A hA
      have hsplit := ih ys' B hys hB
      simp only [splitRender]
      rw [hy, hsplit]
      simp [hm]
    · rw [List.filter_cons, if_neg (by simp [hm])] at hA
      rw [List.filter_cons, if_pos (by simp [hm])] at hB
      obtain ⟨y, ys', hy, hys, rfl⟩ := exceptMapM_cons_ok _ a _ B hB
      have hsplit := ih A ys' hA hys
      simp only [splitRender]
      rw [hy, hsplit]
      simp [hm]

theorem lookupRoots_env (R : RenderEnv) (input : Option String) (name : String) :
    lookupRoots (get_jinja2_environment R input) name = probeRoots R input name := by
  simp only [lookupRoots, get_jinja2_environment, probeRoots, overrideDirectory]
  cases input with
  | none =>
    simp only [List.findSome?]
    cases R.fs R.cwd name with
    | none =>
      simp only [List.findSome?]
      cases R.fs templates_directory name <;> rfl
    | some t => rfl
  | some p =>
    simp only [List.findSome?]
    cases R.fs (R.parent p) name with
    | none =>
      simp only [List.findSome?]
      cases R.fs templates_directory name <;> rfl
    | some t => rfl

theorem probeRoots_none_iff (R : RenderEnv) (input : Option String) (name : String) :
    probeRoots R input name = none
      ↔ R.fs (overrideDirectory R input) name = none
        ∧ R.fs templates_directory name = none := by
  simp only [probeRoots]
  cases R.fs (overrideDirectory R input) name with
  | none => simp
  | some t => simp

theorem render_single_template_spec (R : RenderEnv) (file_type rel : String)
    (m : RenderCVModel) (kwargs : List (String × String)) :
    render_single_template R file_type rel m kwargs =
      match resolveTemplateSpec R m.input_file_path m.design.theme file_type rel with
      | some t => Except.ok (t m kwargs)
      | none =>
        Except.error (RenderError.templateNotFound (file_type ++ "/" ++ rel)) := by
  simp only [render_single_template, Jinja2Environment.get_template, lookupRoots_env,
    resolveTemplateSpec]
  by_cases hft : file_type = "typst"
  · rw [if_pos hft, if_pos hft]
    cases probeRoots R m.input_file_path (m.design.theme ++ "/" ++ rel) with
    | some t => rfl
    | none =>
      cases probeRoots R m.input_file_path (file_type ++ "/" ++ rel) with
      | some t => rfl
      | none => rfl
  · rw [if_neg hft, if_neg hft]
    cases probeRoots R m.input_file_path (file_type ++ "/" ++ rel) with
    | some t => rfl
    | none => rfl

theorem probeRoots_fs (R : RenderEnv) (input : Option String) (name : String)
    (t : Template) (h : probeRoots R input name = some t) :
    ∃ root, R.fs root name = some t := by
  simp only [probeRoots] at h
  cases hov : R.fs (overrideDirectory R input) name with
  | some t' =>
    rw [hov] at h
    exact ⟨overrideDirectory R input, by rw [hov, Option.some.inj h]⟩
  | none =>
    rw [hov] at h
    exact ⟨templates_directory, h⟩

theorem resolveTemplateSpec_fs (R : RenderEnv) (input : Option String)
    (theme file_type rel : String) (t : Template)
    (h : resolveTemplateSpec R input theme file_type rel = some t) :
    ∃ root name, R.fs root name = some t := by
  simp only [resolveTemplateSpec] at h
  by_cases hft : file_type = "typst"
  · rw [if_pos hft] at h
    cases hth : probeRoots R input (theme ++ "/" ++ rel) with
    | some t' =>
      rw [hth] at h
      obtain ⟨root, hr⟩ := probeRoots_fs R input (theme ++ "/" ++ rel) t
        (by rw [hth, Option.some.inj h])
      exact ⟨root, theme ++ "/" ++ rel, hr⟩
    | none =>
      rw [hth] at h
      obtain ⟨root, hr⟩ := probeRoots_fs R input (file_type ++ "/" ++ rel) t h
      exact ⟨root, file_type ++ "/" ++ rel, hr⟩
  · rw [if_neg hft] at h
    obtain ⟨root, hr⟩ := probeRoots_fs R input (file_type ++ "/" ++ rel) t h
    exact ⟨root, file_type ++ "/" ++ rel, hr⟩

theorem documentHead_typst (R : RenderEnv) (m : RenderCVModel) (hd pr : String)
    (hh : render_single_template R FileType.typst.format
        ("Header.j2." ++ extOf FileType.typst) m [] = Except.ok hd)
    (hp : render_single_template R "typst"
        ("Preamble.j2." ++ extOf FileType.typst) m [] = Except.ok pr) :
    documentHead R m FileType.typst = Except.ok (pr ++ "\n\n" ++ hd ++ "\n") := by
  simp only [documentHead]
  rw [hh, hp]

theorem documentHead_markdown (R : RenderEnv) (m : RenderCVModel) (hd : String)
    (hh : render_single_template R FileType.markdown.format
        ("Header.j2." ++ extOf FileType.markdown) m [] = Except.ok hd) :
    documentHead R m FileType.markdown = Except.ok (hd ++ "\n") := by
  simp only [documentHead]
  rw [hh]

theorem documentHead_ok_components (R : RenderEnv) (m : RenderCVModel) (ft : FileType)
    (h : rOk (documentHead R m ft) = true) :
    rOk (render_single_template R ft.format ("Header.j2." ++ extOf ft) m []) = true
    ∧ (ft = FileType.typst →
        rOk (render_single_template R "typst" ("Preamble.j2." ++ extOf ft) m [])
          = true) := by
  simp only [documentHead] at h
  cases hh : render_single_template R ft.format ("Header.j2." ++ extOf ft) m [] with
  | error e => rw [hh] at h; simp [rOk] at h
  | ok hd =>
    rw [hh] at h
    refine ⟨by simp [rOk, hh], ?_⟩
    intro hft
    subst hft
    cases hp : render_single_template R "typst"
        ("Preamble.j2." ++ extOf FileType.typst) m [] with
    | error e => rw [hp] at h; simp [rOk] at h
    | ok p => simp [rOk, hp]

theorem render_single_template_congr (R : RenderEnv) (file_type rel : String)
    (M₁ M₂ : RenderCVModel) (kw : List (String × String))
    (hpath : M₁.input_file_path = M₂.input_file_path)
    (htheme : M₁.design.theme = M₂.design.theme)
    (ht : ∀ root name t, R.fs root name = some t → ∀ kw', t M₁ kw' = t M₂ kw') :
    render_single_template R file_type rel M₁ kw
      = render_single_template R file_type rel M₂ kw := by
  rw [render_single_template_spec, render_single_template_spec, hpath, htheme]
  cases hres : resolveTemplateSpec R M₂.input_file_path M₂.design.theme file_type rel with
  | none => rfl
  | some t =>
    obtain ⟨root, name, hfs⟩ :=
      resolveTemplateSpec_fs R M₂.input_file_path M₂.design.theme file_type rel t hres
    simp only []
    rw [ht root name t hfs kw]

theorem renderEntries_congr (R : RenderEnv) (file_type ext entry_type : String)
    (M₁ M₂ : RenderCVModel)
    (hpath : M₁.input_file_path = M₂.input_file_path)
    (htheme : M₁.design.theme = M₂.design.theme)
    (ht : ∀ root name t, R.fs root name = some t → ∀ kw', t M₁ kw' = t M₂ kw') :
    ∀ es : List String,
    renderEntries R M₁ file_type ext entry_type es
      = renderEntries R M₂ file_type ext entry_type es := by
  intro es
  induction es with
  | nil => rfl
  | cons e es ih =>
    simp only [renderEntries]
    rw [render_single_template_congr R file_type
      ("entries/" ++ entry_type ++ ".j2." ++ ext) M₁ M₂ [("entry", e)] hpath htheme ht,
      ih]

theorem render_section_code_congr (R : RenderEnv) (file_type ext : String)
    (M₁ M₂ : RenderCVModel) (s : RenderCVSection)
    (hpath : M₁.input_file_path = M₂.input_file_path)
    (htheme : M₁.design.theme = M₂.design.theme)
    (ht : ∀ root name t, R.fs root name = some t → ∀ kw', t M₁ kw' = t M₂ kw') :
    render_section_code R M₁ file_type ext s
      = render_section_code R M₂ file_type ext s := by
  simp only [render_section_code]
  rw [render_single_template_congr R file_type ("SectionBeginning.j2." ++ ext) M₁ M₂
      [("section_title", s.title), ("snake_case_section_title", s.snake_case_title),
       ("entry_type", s.entry_type)] hpath htheme ht,
    render_single_template_congr R file_type ("SectionEnding.j2." ++ ext) M₁ M₂
      [("entry_type", s.entry_type)] hpath htheme ht,
    renderEntries_congr R file_type ext s.entry_type M₁ M₂ hpath htheme ht s.entries]

theorem splitRender_model_congr (R : RenderEnv) (file_type ext : String)
    (names : List String) (M₁ M₂ : RenderCVModel)
    (hpath : M₁.input_file_path = M₂.input_file_path)
    (htheme : M₁.design.theme = M₂.design.theme)
    (ht : ∀ root name t, R.fs root name = some t → ∀ kw', t M₁ kw' = t M₂ kw') :
    ∀ sections : List RenderCVSection,
    splitRender R M₁ file_type ext names sections
      = splitRender R M₂ file_type ext names sections := by
  intro sections
  induction sections with
  | nil => rfl
  | cons a rest ih =>
    simp only [splitRender]
    rw [render_section_code_congr R file_type ext M₁ M₂ a hpath htheme ht, ih]

theorem renderSections_model_congr (R : RenderEnv) (file_type ext : String)
    (M₁ M₂ : RenderCVModel)
    (hpath : M₁.input_file_path = M₂.input_file_path)
    (htheme : M₁.design.theme = M₂.design.theme)
    (ht : ∀ root name t, R.fs root name = some t → ∀ kw', t M₁ kw' = t M₂ kw') :
    ∀ (sections : List RenderCVSection) (code : String),
    renderSections R M₁ file_type ext code sections
      = renderSections R M₂ file_type ext code sections := by
  intro sections
  induction sections with
  | nil => intro code; rfl
  | cons a rest ih =>
    intro code
    simp only [renderSections]
    rw [render_section_code_congr R file_type ext M₁ M₂ a hpath htheme ht]
    cases render_section_code R M₂ file_type ext a with
    | error e => rfl
    | ok sc => exact ih (code ++ "\n" ++ sc)

theorem documentHead_congr (R : RenderEnv) (ft : FileType) (M₁ M₂ : RenderCVModel)
    (hpath : M₁.input_file_path = M₂.input_file_path)
    (htheme : M₁.design.theme = M₂.design.theme)
    (ht : ∀ root name t, R.fs root name = some t → ∀ kw', t M₁ kw' = t M₂ kw') :
    documentHead R M₁ ft = documentHead R M₂ ft := by
  simp only [documentHead]
  rw [render_single_template_congr R ft.format ("Header.j2." ++ extOf ft) M₁ M₂ []
    hpath htheme ht]
  cases render_single_template R ft.format ("Header.j2." ++ extOf ft) M₂ [] with
  | error e => rfl
  | ok hd =>
    cases ft with
    | markdown => rfl
    | typst =>
      rw [render_single_template_congr R "typst"
        ("Preamble.j2." ++ extOf FileType.typst) M₁ M₂ [] hpath htheme ht]

/-! ### Claim theorems -/

/-- C1: evaluation of the code at the failing input.  For a model whose
design has theme "sidebar" but no sidebar attribute, with every template
present on disk, `render_full_template(model, "typst")` does not fall back
to single-column: the two-column branch is taken and reading
`design.sidebar.width` raises an attribute error, so no document is
returned. -/
theorem c1_sidebar_without_config_errors :
    render_full_template envAll ppId mNoCfg FileType.typst
      = Except.error (RenderError.attributeError "sidebar") := rfl

/-- C6: template resolution.  `render_single_template` resolves exactly as
the spec describes: for typst the theme-qualified path is probed first and
the format-qualified path only on failure, for other formats the
format-qualified path directly, and every probe checks the caller-supplied
override directory before the built-in templates directory (so an override
template wins, second conjunct). -/
theorem c6_template_resolution_order (R : RenderEnv) (file_type rel : String)
    (m : RenderCVModel) (kwargs : List (String × String)) :
    (render_single_template R file_type rel m kwargs =
      match resolveTemplateSpec R m.input_file_path m.design.theme file_type rel with
      | some t => Except.ok (t m kwargs)
      | none =>
        Except.error (RenderError.templateNotFound (file_type ++ "/" ++ rel)))
    ∧ (∀ name t, R.fs (overrideDirectory R m.input_file_path) name = some t →
        probeRoots R m.input_file_path name = some t) := by
  refine ⟨render_single_template_spec R file_type rel m kwargs, ?_⟩
  intro name t h
  simp [probeRoots, h]

/-- C6 witness: a concrete override-directory hit resolves through the
override root. -/
theorem c6_witness :
    envAll.fs (overrideDirectory envAll mClassic.input_file_path) "typst/Header.j2.typ"
        = some tmplEmpty
    ∧ probeRoots envAll mClassic.input_file_path "typst/Header.j2.typ"
        = some tmplEmpty :=
  ⟨rfl, (c6_template_resolution_order envAll "typst" "Header.j2.typ" mClassic []).2
      "typst/Header.j2.typ" tmplEmpty rfl⟩

/-- C7: a template-not-found error is raised by `render_single_template` if
and only if no probe resolves in any search root (first conjunct), and a
successful `render_full_template` requires every needed template (header,
preamble for typst, and each section's beginning, ending and entry
templates) to have resolved, so a missing one makes the pipeline fail
rather than return a partial document (second conjunct). -/
theorem c7_template_not_found_propagation (R : RenderEnv) :
    (∀ (file_type rel : String) (m : RenderCVModel) (kwargs : List (String × String)),
      (render_single_template R file_type rel m kwargs
          = Except.error (RenderError.templateNotFound (file_type ++ "/" ++ rel)))
        ↔ ((file_type = "typst" →
              R.fs (overrideDirectory R m.input_file_path)
                  (m.design.theme ++ "/" ++ rel) = none
              ∧ R.fs templates_directory (m.design.theme ++ "/" ++ rel) = none)
            ∧ R.fs (overrideDirectory R m.input_file_path) (file_type ++ "/" ++ rel)
                = none
            ∧ R.fs templates_directory (file_type ++ "/" ++ rel) = none))
    ∧ (∀ (process_model : ProcessModel) (m₀ : RenderCVModel) (ft : FileType),
      rOk (render_full_template R process_model m₀ ft) = true →
      rOk (render_single_template R ft.format ("Header.j2." ++ extOf ft)
          (process_model m₀ ft) []) = true
      ∧ (ft = FileType.typst →
          rOk (render_single_template R "typst" ("Preamble.j2." ++ extOf ft)
            (process_model m₀ ft) []) = true)
      ∧ ∀ s ∈ (process_model m₀ ft).cv.rendercv_sections,
          rOk (render_single_template R ft.format ("SectionBeginning.j2." ++ extOf ft)
            (process_model m₀ ft)
            [("section_title", s.title),
             ("snake_case_section_title", s.snake_case_title),
             ("entry_type", s.entry_type)]) = true
          ∧ rOk (render_single_template R ft.format ("SectionEnding.j2." ++ extOf ft)
              (process_model m₀ ft) [("entry_type", s.entry_type)]) = true
          ∧ ∀ e ∈ s.entries,
              rOk (render_single_template R ft.format
                ("entries/" ++ s.entry_type ++ ".j2." ++ extOf ft)
                (process_model m₀ ft) [("entry", e)]) = true) := by
  constructor
  · intro file_type rel m kwargs
    rw [render_single_template_spec]
    by_cases hft : file_type = "typst"
    · subst hft
      simp only [resolveTemplateSpec, if_true]
      cases h1 : probeRoots R m.input_file_path (m.design.theme ++ "/" ++ rel) with
      | some t =>
        constructor
        · intro h; exact Except.noConfusion h
        · rintro ⟨hth, _, _⟩
          obtain ⟨ho, hb⟩ := hth trivial
          rw [(probeRoots_none_iff R m.input_file_path _).mpr ⟨ho, hb⟩] at h1
          exact Option.noConfusion h1
      | none =>
        cases h2 : probeRoots R m.input_file_path ("typst" ++ "/" ++ rel) with
        | some t =>
          constructor
          · intro h; exact Except.noConfusion h
          · rintro ⟨_, ho, hb⟩
            rw [(probeRoots_none_iff R m.input_file_path _).mpr ⟨ho, hb⟩] at h2
            exact Option.noConfusion h2
        | none =>
          constructor
          · intro _
            exact ⟨fun _ => (probeRoots_none_iff R m.input_file_path _).mp h1,
              ((probeRoots_none_iff R m.input_file_path _).mp h2).1,
              ((probeRoots_none_iff R m.input_file_path _).mp h2).2⟩
          · intro _; rfl
    · simp only [resolveTemplateSpec]
      rw [if_neg hft]
      cases h2 : probeRoots R m.input_file_path (file_type ++ "/" ++ rel) with
      | some t =>
        constructor
        · intro h; exact Except.noConfusion h
        · rintro ⟨_, ho, hb⟩
          rw [(probeRoots_none_iff R m.input_file_path _).mpr ⟨ho, hb⟩] at h2
          exact Option.noConfusion h2
      | none =>
        constructor
        · intro _
          exact ⟨fun hc => absurd hc hft,
            ((probeRoots_none_iff R m.input_file_path _).mp h2).1,
            ((probeRoots_none_iff R m.input_file_path _).mp h2).2⟩
        · intro _; rfl
  · intro process_model m₀ ft h
    simp only [render_full_template, renderProcessed] at h
    cases hd : documentHead R (process_model m₀ ft) ft with
    | error e => simp only [hd] at h; simp [rOk] at h
    | ok code =>
      simp only [hd] at h
      obtain ⟨hH, hP⟩ := documentHead_ok_components R (process_model m₀ ft) ft
        (by simp [rOk, hd])
      refine ⟨hH, hP, ?_⟩
      intro s hs
      by_cases hcond : (process_model m₀ ft).design.theme = "sidebar"
          ∧ ft = FileType.typst
      · rw [if_pos hcond] at h
        cases hsp : splitRender R (process_model m₀ ft) ft.format (extOf ft)
            (sidebarSectionNames (process_model m₀ ft))
            (process_model m₀ ft).cv.rendercv_sections with
        | error e => simp only [hsp] at h; simp [rOk] at h
        | ok p =>
          have hsec := splitRender_ok_sections R (process_model m₀ ft) ft.format
            (extOf ft) (sidebarSectionNames (process_model m₀ ft))
            (process_model m₀ ft).cv.rendercv_sections (by simp [rOk, hsp]) s hs
          exact render_section_code_ok_components R (process_model m₀ ft) ft.format
            (extOf ft) s hsec
      · rw [if_neg hcond] at h
        have hsec := renderSections_ok_sections R (process_model m₀ ft) ft.format
          (extOf ft) (process_model m₀ ft).cv.rendercv_sections code h s hs
        exact render_section_code_ok_components R (process_model m₀ ft) ft.format
          (extOf ft) s hsec

/-- C7 witness: a concrete successful markdown render, from which the
header template's resolution success follows by the theorem. -/
theorem c7_witness :
    rOk (render_full_template envAll ppId mClassic FileType.markdown) = true
    ∧ rOk (render_single_template envAll FileType.markdown.format
        ("Header.j2." ++ extOf FileType.markdown) (ppId mClassic FileType.markdown) [])
        = true :=
  ⟨rfl, ((c7_template_not_found_propagation envAll).2 ppId mClassic FileType.markdown
      rfl).1⟩

/-- C2: the grid construct appears if and only if theme is "sidebar" and
the format is typst.  First conjunct: a successful sidebar-and-typst render
has the grid-wrapped shape (a prefix followed by the grid block built from
the two streams).  Second conjunct: for every other theme/format
combination the render equals the single-column document, which is built
with no grid emission. -/
theorem c2_grid_iff_sidebar_and_typst (R : RenderEnv) (process_model : ProcessModel)
    (m₀ : RenderCVModel) (ft : FileType) :
    (∀ out, render_full_template R process_model m₀ ft = Except.ok out →
      (process_model m₀ ft).design.theme = "sidebar" → ft = FileType.typst →
      ∃ sb code_head sidebar_content main_content,
        (process_model m₀ ft).design.sidebar = some sb
        ∧ out = code_head ++ gridString sb sidebar_content main_content)
    ∧ (¬((process_model m₀ ft).design.theme = "sidebar" ∧ ft = FileType.typst) →
      render_full_template R process_model m₀ ft
        = renderSingleColumnDocument R (process_model m₀ ft) ft) := by
  constructor
  · intro out hout htheme hft
    simp only [render_full_template, renderProcessed] at hout
    cases hd : documentHead R (process_model m₀ ft) ft with
    | error e => simp only [hd] at hout; exact Except.noConfusion hout
    | ok code =>
      simp only [hd] at hout
      rw [if_pos ⟨htheme, hft⟩] at hout
      cases hsp : splitRender R (process_model m₀ ft) ft.format (extOf ft)
          (sidebarSectionNames (process_model m₀ ft))
          (process_model m₀ ft).cv.rendercv_sections with
      | error e => simp only [hsp] at hout; exact Except.noConfusion hout
      | ok p =>
        simp only [hsp] at hout
        cases hsb : (process_model m₀ ft).design.sidebar with
        | none => simp only [hsb] at hout; exact Except.noConfusion hout
        | some sb =>
          simp only [hsb] at hout
          exact ⟨sb, code, String.intercalate "\n\n" p.1,
            String.intercalate "\n\n" p.2, rfl, (Except.ok.inj hout).symm⟩
  · intro hncond
    simp only [render_full_template, renderProcessed, renderSingleColumnDocument]
    cases hd : documentHead R (process_model m₀ ft) ft with
    | error e => rfl
    | ok code => simp [hncond]

/-- C2 witness: a markdown render under a non-sidebar combination equals
the single-column document. -/
theorem c2_witness :
    ¬((ppId mClassic FileType.markdown).design.theme = "sidebar"
        ∧ FileType.markdown = FileType.typst)
    ∧ render_full_template envAll ppId mClassic FileType.markdown
        = renderSingleColumnDocument envAll (ppId mClassic FileType.markdown)
            FileType.markdown :=
  ⟨by decide, (c2_grid_iff_sidebar_and_typst envAll ppId mClassic FileType.markdown).2
      (by decide)⟩

/-- C3: the sidebar partition is total and exclusive.  When the sidebar
loop (run with the names computed by the partition pass) succeeds, the
sidebar stream is exactly the renders of the sections whose snake-case
title is in the configuration set, the main stream exactly the renders of
the others, both in original order, and the stream sizes sum to the section
count. -/
theorem c3_partition_complete (R : RenderEnv) (m : RenderCVModel) (ext : String)
    (cfg : List String) (sections : List RenderCVSection)
    (sidebar_codes main_codes : List String)
    (h : splitRender R m "typst" ext ((partitionNames cfg sections).1) sections
        = Except.ok (sidebar_codes, main_codes)) :
    (sections.filter (fun s => decide (s.snake_case_title ∈ cfg))).mapM
        (render_section_code R m "typst" ext) = Except.ok sidebar_codes
    ∧ (sections.filter (fun s => !decide (s.snake_case_title ∈ cfg))).mapM
        (render_section_code R m "typst" ext) = Except.ok main_codes
    ∧ sidebar_codes.length + main_codes.length = sections.length := by
  rw [splitRender_congr R m "typst" ext ((partitionNames cfg sections).1) cfg sections
    (fun s hs => mem_sidebarNames_iff cfg sections s hs)] at h
  obtain ⟨hA, hB⟩ := splitRender_ok_filters R m "typst" ext cfg sections
    sidebar_codes main_codes h
  refine ⟨hA, hB, ?_⟩
  rw [exceptMapM_ok_length _ _ _ hA, exceptMapM_ok_length _ _ _ hB]
  exact filter_length_partition _ sections

/-- C3 witness: a concrete two-section split where the skills section goes
to the sidebar stream and the experience section to the main stream. -/
theorem c3_witness :
    splitRender envAll mSidebar "typst" "typ"
        ((partitionNames ["skills"] [sectExperience, sectSkills]).1)
        [sectExperience, sectSkills] = Except.ok (["\n\n"], ["\n\n"])
    ∧ ([sectExperience, sectSkills].filter
        (fun s => decide (s.snake_case_title ∈ ["skills"]))).mapM
        (render_section_code envAll mSidebar "typst" "typ") = Except.ok ["\n\n"]
    ∧ ([sectExperience, sectSkills].filter
        (fun s => !decide (s.snake_case_title ∈ ["skills"]))).mapM
        (render_section_code envAll mSidebar "typst" "typ") = Except.ok ["\n\n"]
    ∧ (["\n\n"] : List String).length + (["\n\n"] : List String).length
        = ([sectExperience, sectSkills] : List RenderCVSection).length :=
  ⟨rfl, c3_partition_complete envAll mSidebar "typ" ["skills"]
      [sectExperience, sectSkills] ["\n\n"] ["\n\n"] rfl⟩

/-- C4: the section block is the beginning render, a newline, the entry
renders joined by exactly two newline characters (one per entry, in entry
order, with no reordering, filtering or deduplication, expressed by the
`mapM` hypothesis), a newline, and the ending render; a section with zero
entries yields beginning, an empty entries block and ending. -/
theorem c4_section_block_structure (R : RenderEnv) (m : RenderCVModel)
    (file_type ext : String) (s : RenderCVSection) (b e : String) (cs : List String)
    (hb : render_single_template R file_type ("SectionBeginning.j2." ++ ext) m
        [("section_title", s.title), ("snake_case_section_title", s.snake_case_title),
         ("entry_type", s.entry_type)] = Except.ok b)
    (he : render_single_template R file_type ("SectionEnding.j2." ++ ext) m
        [("entry_type", s.entry_type)] = Except.ok e)
    (hcs : s.entries.mapM (fun en => render_single_template R file_type
        ("entries/" ++ s.entry_type ++ ".j2." ++ ext) m [("entry", en)])
        = Except.ok cs) :
    render_section_code R m file_type ext s
      = Except.ok (b ++ "\n" ++ String.intercalate "\n\n" cs ++ "\n" ++ e)
    ∧ cs.length = s.entries.length := by
  have hent : renderEntries R m file_type ext s.entry_type s.entries
      = Except.ok cs := by
    rw [renderEntries_eq_mapM]
    exact hcs
  constructor
  · simp only [render_section_code]
    rw [hb, he, hent]
  · exact exceptMapM_ok_length _ _ _ hcs

/-- C4 witness: a section with zero entries renders as beginning, empty
entries block, ending. -/
theorem c4_witness :
    render_single_template envAll "typst" ("SectionBeginning.j2." ++ "typ") mClassic
        [("section_title", sectEducationEmpty.title),
         ("snake_case_section_title", sectEducationEmpty.snake_case_title),
         ("entry_type", sectEducationEmpty.entry_type)] = Except.ok ""
    ∧ render_single_template envAll "typst" ("SectionEnding.j2." ++ "typ") mClassic
        [("entry_type", sectEducationEmpty.entry_type)] = Except.ok ""
    ∧ sectEducationEmpty.entries.mapM (fun en =>
        render_single_template envAll "typst"
          ("entries/" ++ sectEducationEmpty.entry_type ++ ".j2." ++ "typ") mClassic
          [("entry", en)]) = Except.ok []
    ∧ render_section_code envAll mClassic "typst" "typ" sectEducationEmpty
        = Except.ok ("" ++ "\n" ++ String.intercalate "\n\n" [] ++ "\n" ++ "")
    ∧ ([] : List String).length = sectEducationEmpty.entries.length :=
  ⟨rfl, rfl, rfl,
    c4_section_block_structure envAll mClassic "typst" "typ" sectEducationEmpty
      "" "" [] rfl rfl rfl⟩

theorem renderProcessed_single_column (R : RenderEnv) (M : RenderCVModel)
    (ft : FileType)
    (hncond : ¬(M.design.theme = "sidebar" ∧ ft = FileType.typst)) :
    renderProcessed R M ft = renderSingleColumnDocument R M ft := by
  unfold renderProcessed renderSingleColumnDocument
  cases documentHead R M ft with
  | error e => rfl
  | ok code => simp [hncond]

theorem renderProcessed_sidebar (R : RenderEnv) (M : RenderCVModel) (sb : Sidebar)
    (code : String) (p : List String × List String)
    (htheme : M.design.theme = "sidebar")
    (hsb : M.design.sidebar = some sb)
    (hd : documentHead R M FileType.typst = Except.ok code)
    (hsp : splitRender R M FileType.typst.format (extOf FileType.typst)
        (sidebarSectionNames M) M.cv.rendercv_sections = Except.ok p) :
    renderProcessed R M FileType.typst
      = Except.ok (code ++ gridString sb (String.intercalate "\n\n" p.1)
          (String.intercalate "\n\n" p.2)) := by
  simp [renderProcessed, hd, hsp, hsb, htheme]

/-- C5: the grid construct's column specification and cell order follow
`sidebar.position`, and its gutter is `sidebar.gutter`: for `"left"` the
columns are the sidebar width then `1fr` with the sidebar stream's content
in the first cell; for `"right"` the columns are `1fr` then the sidebar
width with the main stream's content first. -/
theorem c5_grid_position_layout (R : RenderEnv) (process_model : ProcessModel)
    (m₀ : RenderCVModel) (sb : Sidebar) (hd pr : String)
    (sidebar_codes main_codes : List String)
    (htheme : (process_model m₀ FileType.typst).design.theme = "sidebar")
    (hsb : (process_model m₀ FileType.typst).design.sidebar = some sb)
    (hh : render_single_template R "typst" ("Header.j2." ++ "typ")
        (process_model m₀ FileType.typst) [] = Except.ok hd)
    (hp : render_single_template R "typst" ("Preamble.j2." ++ "typ")
        (process_model m₀ FileType.typst) [] = Except.ok pr)
    (hA : ((process_model m₀ FileType.typst).cv.rendercv_sections.filter
        (fun s => decide (s.snake_case_title ∈ sb.sections))).mapM
        (render_section_code R (process_model m₀ FileType.typst) "typst" "typ")
        = Except.ok sidebar_codes)
    (hB : ((process_model m₀ FileType.typst).cv.rendercv_sections.filter
        (fun s => !decide (s.snake_case_title ∈ sb.sections))).mapM
        (render_section_code R (process_model m₀ FileType.typst) "typst" "typ")
        = Except.ok main_codes) :
    (sb.position = "left" →
      render_full_template R process_model m₀ FileType.typst
        = Except.ok ((pr ++ "\n\n" ++ hd ++ "\n")
            ++ ("\n#grid(\n  columns: (" ++ sb.width ++ ", 1fr),\n  gutter: "
              ++ sb.gutter ++ ",\n  [\n" ++ String.intercalate "\n\n" sidebar_codes
              ++ "\n  ],\n  [\n" ++ String.intercalate "\n\n" main_codes
              ++ "\n  ]\n)\n")))
    ∧ (sb.position = "right" →
      render_full_template R process_model m₀ FileType.typst
        = Except.ok ((pr ++ "\n\n" ++ hd ++ "\n")
            ++ ("\n#grid(\n  columns: (1fr, " ++ sb.width ++ "),\n  gutter: "
              ++ sb.gutter ++ ",\n  [\n" ++ String.intercalate "\n\n" main_codes
              ++ "\n  ],\n  [\n" ++ String.intercalate "\n\n" sidebar_codes
              ++ "\n  ]\n)\n"))) := by
  have hdoc : documentHead R (process_model m₀ FileType.typst) FileType.typst
      = Except.ok (pr ++ "\n\n" ++ hd ++ "\n") :=
    documentHead_typst R (process_model m₀ FileType.typst) hd pr hh hp
  have h1 : splitRender R (process_model m₀ FileType.typst) "typst" "typ" sb.sections
      (process_model m₀ FileType.typst).cv.rendercv_sections
      = Except.ok (sidebar_codes, main_codes) :=
    splitRender_of_filters R (process_model m₀ FileType.typst) "typst" "typ"
      sb.sections (process_model m₀ FileType.typst).cv.rendercv_sections
      sidebar_codes main_codes hA hB
  have h2 : splitRender R (process_model m₀ FileType.typst) "typst" "typ"
      (sidebarSectionNames (process_model m₀ FileType.typst))
      (process_model m₀ FileType.typst).cv.rendercv_sections
      = Except.ok (sidebar_codes, main_codes) := by
    have hnames : sidebarSectionNames (process_model m₀ FileType.typst)
        = (partitionNames sb.sections
            (process_model m₀ FileType.typst).cv.rendercv_sections).1 := by
      simp [sidebarSectionNames, hsb, htheme]
    rw [hnames,
      splitRender_congr R (process_model m₀ FileType.typst) "typst" "typ"
        ((partitionNames sb.sections
          (process_model m₀ FileType.typst).cv.rendercv_sections).1) sb.sections
        (process_model m₀ FileType.typst).cv.rendercv_sections
        (fun s hs => mem_sidebarNames_iff sb.sections
          (process_model m₀ FileType.typst).cv.rendercv_sections s hs)]
    exact h1
  have hmain : render_full_template R process_model m₀ FileType.typst
      = Except.ok ((pr ++ "\n\n" ++ hd ++ "\n")
          ++ gridString sb (String.intercalate "\n\n" sidebar_codes)
            (String.intercalate "\n\n" main_codes)) :=
    renderProcessed_sidebar R (process_model m₀ FileType.typst) sb
      (pr ++ "\n\n" ++ hd ++ "\n") (sidebar_codes, main_codes) htheme hsb hdoc h2
  constructor
  · intro hpos
    rw [hmain]
    simp only [gridString, gridLeftBlock, if_pos hpos]
  · intro hpos
    have hnotleft : ¬(sb.position = "left") := by rw [hpos]; decide
    rw [hmain]
    simp only [gridString, gridRightBlock, if_neg hnotleft]

/-- C5 witness: the spec's example scenario, a CV with Experience and
Skills sections, skills in the sidebar, position left. -/
theorem c5_witness :
    sbLeft.position = "left"
    ∧ (((ppId mSidebar FileType.typst).cv.rendercv_sections.filter
        (fun s => decide (s.snake_case_title ∈ sbLeft.sections))).mapM
        (render_section_code envAll (ppId mSidebar FileType.typst) "typst" "typ")
        = Except.ok ["\n\n"])
    ∧ render_full_template envAll ppId mSidebar FileType.typst
        = Except.ok (("" ++ "\n\n" ++ "" ++ "\n")
            ++ ("\n#grid(\n  columns: (" ++ sbLeft.width ++ ", 1fr),\n  gutter: "
              ++ sbLeft.gutter ++ ",\n  [\n" ++ String.intercalate "\n\n" ["\n\n"]
              ++ "\n  ],\n  [\n" ++ String.intercalate "\n\n" ["\n\n"]
              ++ "\n  ]\n)\n")) :=
  ⟨rfl, rfl,
    (c5_grid_position_layout envAll ppId mSidebar sbLeft "" "" ["\n\n"] ["\n\n"]
      rfl rfl rfl rfl rfl rfl).1 rfl⟩

/-- C8: document assembly.  For markdown the document is the header render,
a newline, then in single-column mode each section block in original order,
each preceded by one newline (first conjunct).  For typst with a non-sidebar
theme the document starts with the preamble render, a blank line, the header
render, a newline, then the section blocks likewise (second conjunct).  For
typst in sidebar mode the document still begins with preamble, blank line,
header, newline (third conjunct).  The header appears exactly once. -/
theorem c8_document_assembly_order (R : RenderEnv) (process_model : ProcessModel)
    (m₀ : RenderCVModel) (ft : FileType) (hd pr : String) (blocks : List String) :
    (ft = FileType.markdown →
      render_single_template R "markdown" ("Header.j2." ++ "md")
          (process_model m₀ ft) [] = Except.ok hd →
      (process_model m₀ ft).cv.rendercv_sections.mapM
          (render_section_code R (process_model m₀ ft) "markdown" "md")
        = Except.ok blocks →
      render_full_template R process_model m₀ ft
        = Except.ok (blocks.foldl (fun acc b => acc ++ "\n" ++ b) (hd ++ "\n")))
    ∧ (ft = FileType.typst → (process_model m₀ ft).design.theme ≠ "sidebar" →
      render_single_template R "typst" ("Header.j2." ++ "typ")
          (process_model m₀ ft) [] = Except.ok hd →
      render_single_template R "typst" ("Preamble.j2." ++ "typ")
          (process_model m₀ ft) [] = Except.ok pr →
      (process_model m₀ ft).cv.rendercv_sections.mapM
          (render_section_code R (process_model m₀ ft) "typst" "typ")
        = Except.ok blocks →
      render_full_template R process_model m₀ ft
        = Except.ok (blocks.foldl (fun acc b => acc ++ "\n" ++ b)
            (pr ++ "\n\n" ++ hd ++ "\n")))
    ∧ (ft = FileType.typst → (process_model m₀ ft).design.theme = "sidebar" →
      render_single_template R "typst" ("Header.j2." ++ "typ")
          (process_model m₀ ft) [] = Except.ok hd →
      render_single_template R "typst" ("Preamble.j2." ++ "typ")
          (process_model m₀ ft) [] = Except.ok pr →
      ∀ out, render_full_template R process_model m₀ ft = Except.ok out →
      ∃ body, out = (pr ++ "\n\n" ++ hd ++ "\n") ++ body) := by
  refine ⟨?_, ?_, ?_⟩
  · intro hft hh hmap
    have hneg : ¬((process_model m₀ ft).design.theme = "sidebar"
        ∧ ft = FileType.typst) :=
      fun hc => FileType.noConfusion (hft.symm.trans hc.2)
    have hsc := renderProcessed_single_column R (process_model m₀ ft) ft hneg
    subst hft
    calc render_full_template R process_model m₀ FileType.markdown
        = renderSingleColumnDocument R (process_model m₀ FileType.markdown)
            FileType.markdown := hsc
      _ = Except.ok (blocks.foldl (fun acc b => acc ++ "\n" ++ b) (hd ++ "\n")) := by
          unfold renderSingleColumnDocument
          rw [documentHead_markdown R (process_model m₀ FileType.markdown) hd hh]
          exact renderSections_of_mapM R (process_model m₀ FileType.markdown)
            FileType.markdown.format (extOf FileType.markdown)
            (process_model m₀ FileType.markdown).cv.rendercv_sections blocks
            (hd ++ "\n") hmap
  · intro hft htheme hh hp hmap
    have hneg : ¬((process_model m₀ ft).design.theme = "sidebar"
        ∧ ft = FileType.typst) := fun hc => htheme hc.1
    have hsc := renderProcessed_single_column R (process_model m₀ ft) ft hneg
    subst hft
    calc render_full_template R process_model m₀ FileType.typst
        = renderSingleColumnDocument R (process_model m₀ FileType.typst)
            FileType.typst := hsc
      _ = Except.ok (blocks.foldl (fun acc b => acc ++ "\n" ++ b)
            (pr ++ "\n\n" ++ hd ++ "\n")) := by
          unfold renderSingleColumnDocument
          rw [documentHead_typst R (process_model m₀ FileType.typst) hd pr hh hp]
          exact renderSections_of_mapM R (process_model m₀ FileType.typst)
            FileType.typst.format (extOf FileType.typst)
            (process_model m₀ FileType.typst).cv.rendercv_sections blocks
            (pr ++ "\n\n" ++ hd ++ "\n") hmap
  · intro hft htheme hh hp out hout
    simp only [render_full_template, renderProcessed] at hout
    cases hd' : documentHead R (process_model m₀ ft) ft with
    | error e => simp only [hd'] at hout; exact Except.noConfusion hout
    | ok code =>
      simp only [hd'] at hout
      rw [if_pos ⟨htheme, hft⟩] at hout
      cases hsp : splitRender R (process_model m₀ ft) ft.format (extOf ft)
          (sidebarSectionNames (process_model m₀ ft))
          (process_model m₀ ft).cv.rendercv_sections with
      | error e => simp only [hsp] at hout; exact Except.noConfusion hout
      | ok p =>
        simp only [hsp] at hout
        cases hsb : (process_model m₀ ft).design.sidebar with
        | none => simp only [hsb] at hout; exact Except.noConfusion hout
        | some sb =>
          simp only [hsb] at hout
          refine ⟨gridString sb (String.intercalate "\n\n" p.1)
            (String.intercalate "\n\n" p.2), ?_⟩
          have hcode : code = pr ++ "\n\n" ++ hd ++ "\n" := by
            subst hft
            exact Except.ok.inj (hd'.symm.trans
              (documentHead_typst R (process_model m₀ FileType.typst) hd pr hh hp))
          rw [← hcode]
          exact (Except.ok.inj hout).symm

/-- C8 witness: a concrete markdown document assembly. -/
theorem c8_witness :
    render_single_template envAll "markdown" ("Header.j2." ++ "md")
        (ppId mClassic FileType.markdown) [] = Except.ok ""
    ∧ (ppId mClassic FileType.markdown).cv.rendercv_sections.mapM
        (render_section_code envAll (ppId mClassic FileType.markdown)
          "markdown" "md") = Except.ok ["\n\n"]
    ∧ render_full_template envAll ppId mClassic FileType.markdown
        = Except.ok ((["\n\n"] : List String).foldl
            (fun acc b => acc ++ "\n" ++ b) ("" ++ "\n")) :=
  ⟨rfl, rfl,
    (c8_document_assembly_order envAll ppId mClassic FileType.markdown "" ""
      ["\n\n"]).1 rfl rfl rfl⟩

/-- C9: the environment is memoized.  In a session of `n + 1` resolutions
that all use the same override key (as in one render, where every call
passes the same model's input file path), the environment is constructed
exactly once, and every resolution is handed that same environment. -/
theorem c9_environment_memoized (R : RenderEnv) (input : Option String) (n : Nat) :
    (resolveSession R none (List.replicate (n + 1) input)).2 = 1
    ∧ (resolveSession R none (List.replicate (n + 1) input)).1
        = List.replicate (n + 1) (get_jinja2_environment R input) := by
  have key : ∀ k : Nat,
      resolveSession R (some (input, get_jinja2_environment R input))
        (List.replicate k input)
      = (List.replicate k (get_jinja2_environment R input), 0) := by
    intro k
    induction k with
    | zero => rfl
    | succ k ih => simp [List.replicate_succ, resolveSession, lruCacheGet, ih]
  have hfirst : resolveSession R none (List.replicate (n + 1) input)
      = (get_jinja2_environment R input
          :: List.replicate n (get_jinja2_environment R input), 1) := by
    simp [List.replicate_succ, resolveSession, lruCacheGet, key n]
  exact ⟨by rw [hfirst], by rw [hfirst]; simp [List.replicate_succ]⟩

theorem renderProcessed_head_error (R : RenderEnv) (M : RenderCVModel) (ft : FileType)
    (e : RenderError) (h : documentHead R M ft = Except.error e) :
    renderProcessed R M ft = Except.error e := by
  unfold renderProcessed
  rw [h]

theorem renderProcessed_sidebar_error (R : RenderEnv) (M : RenderCVModel)
    (code : String) (e : RenderError)
    (htheme : M.design.theme = "sidebar")
    (hd : documentHead R M FileType.typst = Except.ok code)
    (hsp : splitRender R M FileType.typst.format (extOf FileType.typst)
        (sidebarSectionNames M) M.cv.rendercv_sections = Except.error e) :
    renderProcessed R M FileType.typst = Except.error e := by
  simp [renderProcessed, hd, hsp, htheme]

theorem renderSingleColumnDocument_congr (R : RenderEnv) (ft : FileType)
    (M₁ M₂ : RenderCVModel)
    (hcv : M₁.cv = M₂.cv)
    (hpath : M₁.input_file_path = M₂.input_file_path)
    (htheme : M₁.design.theme = M₂.design.theme)
    (ht : ∀ root name t, R.fs root name = some t → ∀ kw, t M₁ kw = t M₂ kw) :
    renderSingleColumnDocument R M₁ ft = renderSingleColumnDocument R M₂ ft := by
  unfold renderSingleColumnDocument
  rw [documentHead_congr R ft M₁ M₂ hpath htheme ht, hcv]
  cases documentHead R M₂ ft with
  | error e => rfl
  | ok code =>
    exact renderSections_model_congr R ft.format (extOf ft) M₁ M₂ hpath htheme ht
      M₂.cv.rendercv_sections code

theorem renderProcessed_sections_membership_congr (R : RenderEnv) (ft : FileType)
    (M₁ M₂ : RenderCVModel) (sb₁ sb₂ : Sidebar)
    (hcv : M₁.cv = M₂.cv)
    (hpath : M₁.input_file_path = M₂.input_file_path)
    (htheme : M₁.design.theme = M₂.design.theme)
    (hsb₁ : M₁.design.sidebar = some sb₁)
    (hsb₂ : M₂.design.sidebar = some sb₂)
    (hw : sb₁.width = sb₂.width) (hpos : sb₁.position = sb₂.position)
    (hg : sb₁.gutter = sb₂.gutter)
    (hmem : ∀ x, x ∈ sb₁.sections ↔ x ∈ sb₂.sections)
    (ht : ∀ root name t, R.fs root name = some t → ∀ kw, t M₁ kw = t M₂ kw) :
    renderProcessed R M₁ ft = renderProcessed R M₂ ft := by
  by_cases hcond : M₂.design.theme = "sidebar" ∧ ft = FileType.typst
  · obtain ⟨hth₂, hft⟩ := hcond
    subst hft
    have hth₁ : M₁.design.theme = "sidebar" := htheme.trans hth₂
    cases hd₂ : documentHead R M₂ FileType.typst with
    | error e =>
      have hd₁ : documentHead R M₁ FileType.typst = Except.error e :=
        (documentHead_congr R FileType.typst M₁ M₂ hpath htheme ht).trans hd₂
      rw [renderProcessed_head_error R M₁ FileType.typst e hd₁,
        renderProcessed_head_error R M₂ FileType.typst e hd₂]
    | ok code =>
      have hd₁ : documentHead R M₁ FileType.typst = Except.ok code :=
        (documentHead_congr R FileType.typst M₁ M₂ hpath htheme ht).trans hd₂
      have hnames₁ : sidebarSectionNames M₁
          = (partitionNames sb₁.sections M₁.cv.rendercv_sections).1 := by
        simp [sidebarSectionNames, hsb₁, hth₁]
      have hnames₂ : sidebarSectionNames M₂
          = (partitionNames sb₂.sections M₂.cv.rendercv_sections).1 := by
        simp [sidebarSectionNames, hsb₂, hth₂]
      have hsplit : splitRender R M₁ FileType.typst.format (extOf FileType.typst)
          (sidebarSectionNames M₁) M₁.cv.rendercv_sections
        = splitRender R M₂ FileType.typst.format (extOf FileType.typst)
          (sidebarSectionNames M₂) M₂.cv.rendercv_sections := by
        rw [hnames₁, hnames₂, hcv]
        calc splitRender R M₁ FileType.typst.format (extOf FileType.typst)
              ((partitionNames sb₁.sections M₂.cv.rendercv_sections).1)
              M₂.cv.rendercv_sections
            = splitRender R M₁ FileType.typst.format (extOf FileType.typst)
              ((partitionNames sb₂.sections M₂.cv.rendercv_sections).1)
              M₂.cv.rendercv_sections := by
              apply splitRender_congr
              intro s hs
              rw [mem_sidebarNames_iff sb₁.sections M₂.cv.rendercv_sections s hs,
                mem_sidebarNames_iff sb₂.sections M₂.cv.rendercv_sections s hs]
              exact hmem s.snake_case_title
          _ = splitRender R M₂ FileType.typst.format (extOf FileType.typst)
              ((partitionNames sb₂.sections M₂.cv.rendercv_sections).1)
              M₂.cv.rendercv_sections :=
              splitRender_model_congr R FileType.typst.format (extOf FileType.typst)
                ((partitionNames sb₂.sections M₂.cv.rendercv_sections).1) M₁ M₂
                hpath htheme ht M₂.cv.rendercv_sections
      cases hsp₂ : splitRender R M₂ FileType.typst.format (extOf FileType.typst)
          (sidebarSectionNames M₂) M₂.cv.rendercv_sections with
      | error e =>
        rw [renderProcessed_sidebar_error R M₁ code e hth₁ hd₁ (hsplit.trans hsp₂),
          renderProcessed_sidebar_error R M₂ code e hth₂ hd₂ hsp₂]
      | ok p =>
        rw [renderProcessed_sidebar R M₁ sb₁ code p hth₁ hsb₁ hd₁ (hsplit.trans hsp₂),
          renderProcessed_sidebar R M₂ sb₂ code p hth₂ hsb₂ hd₂ hsp₂]
        simp [gridString, hw, hpos, hg]
  · have hncond₁ : ¬(M₁.design.theme = "sidebar" ∧ ft = FileType.typst) :=
      fun hc => hcond ⟨htheme.symm.trans hc.1, hc.2⟩
    rw [renderProcessed_single_column R M₁ ft hncond₁,
      renderProcessed_single_column R M₂ ft hcond]
    exact renderSingleColumnDocument_congr R ft M₁ M₂ hcv hpath htheme ht

/-- C10 counterexample: the claim as stated is false.  Templates receive
the design object (templater.py lines 299-304), so a template that reads
`design.sidebar.sections` makes the output depend on the list's order: two
models differing only in that order render differently. -/
theorem c10_counterexample :
    render_full_template envListing ppId mOrderAB FileType.typst
      ≠ render_full_template envListing ppId mOrderBA FileType.typst := by
  intro h
  have h1 : render_full_template envListing ppId mOrderAB FileType.typst
      = Except.ok ("alpha,beta" ++ "\n\n" ++ "alpha,beta" ++ "\n"
          ++ gridLeftBlock "30%" "0.5cm" "" "") := rfl
  have h2 : render_full_template envListing ppId mOrderBA FileType.typst
      = Except.ok ("beta,alpha" ++ "\n\n" ++ "beta,alpha" ++ "\n"
          ++ gridLeftBlock "30%" "0.5cm" "" "") := rfl
  rw [h1, h2] at h
  exact absurd (Except.ok.inj h) (by decide)

/-- C10, amended: for two post-processed models that differ only in the
order or duplication of `design.sidebar.sections` (same membership), the
rendered outputs are identical, provided every template on disk renders
the two models identically (templates do receive the design object, so
this proviso is necessary; the composer itself uses the list only through
membership). -/
theorem c10_membership_invariance (R : RenderEnv) (M : RenderCVModel) (ft : FileType)
    (sb : Sidebar) (l₁ l₂ : List String)
    (hmem : ∀ x, x ∈ l₁ ↔ x ∈ l₂)
    (htmpl : ∀ root name t, R.fs root name = some t → ∀ kw,
      t { M with design := { M.design with
            sidebar := some ({ sb with sections := l₁ }) } } kw
      = t { M with design := { M.design with
            sidebar := some ({ sb with sections := l₂ }) } } kw) :
    renderProcessed R { M with design := { M.design with
        sidebar := some ({ sb with sections := l₁ }) } } ft
    = renderProcessed R { M with design := { M.design with
        sidebar := some ({ sb with sections := l₂ }) } } ft :=
  renderProcessed_sections_membership_congr R ft
    { M with design := { M.design with
        sidebar := some ({ sb with sections := l₁ }) } }
    { M with design := { M.design with
        sidebar := some ({ sb with sections := l₂ }) } }
    ({ sb with sections := l₁ }) ({ sb with sections := l₂ })
    rfl rfl rfl rfl rfl rfl rfl rfl hmem htmpl

/-- C10 witness: duplicating a member of the sidebar section list leaves
the rendered output unchanged when templates ignore the list. -/
theorem c10_witness :
    (∀ x : String, x ∈ ["skills"] ↔ x ∈ ["skills", "skills"])
    ∧ renderProcessed envAll { mSidebar with design := { mSidebar.design with
          sidebar := some ({ sbLeft with sections := ["skills"] }) } } FileType.typst
      = renderProcessed envAll { mSidebar with design := { mSidebar.design with
          sidebar := some ({ sbLeft with sections := ["skills", "skills"] }) } }
          FileType.typst :=
  ⟨by intro x; simp,
    c10_membership_invariance envAll mSidebar FileType.typst sbLeft
      ["skills"] ["skills", "skills"] (by intro x; simp)
      (by
        intro root name t hfs kw
        injection hfs with h'
        rw [← h']
        rfl)⟩
